import Mathlib

set_option maxHeartbeats 1000000

namespace AgenticHelper

/-! Shallow embedding of the AI-AGENTIC-HELPER planning assistant.
The intent classifier, tool result contracts, plan persistence and the
orchestration loop continuation predicate are translated from
`agentic_helper/agent/planning.py`, `agentic_helper/tools/planning.py`
and their flat-layout counterparts `ai_agent.py` / `agent_tools.py`. -/

/-- Python str.lower restricted to per-character lowering (all classifier
phrase lists and inputs are ASCII), mirroring `message.content.lower()`. -/
def pyLower (s : String) : String :=
  String.mk (s.data.map Char.toLower)

/-- Characters treated as whitespace by Python str.strip and str.split. -/
def pySpace (c : Char) : Bool :=
  c = ' ' || c = '\t' || c = '\n' || c = '\r' || c = '\x0b' || c = '\x0c'

/-- Python str.strip with no arguments: drop leading and trailing whitespace. -/
def pyStrip (s : String) : String :=
  String.mk (((s.data.dropWhile pySpace).reverse.dropWhile pySpace).reverse)

/-- Helper for the word count of Python str.split with no arguments: counts the
maximal runs of non-whitespace characters; the Bool records whether the
previous character was inside a word. -/
def wordCountAux : Bool → List Char → Nat
  | _, [] => 0
  | inWord, c :: rest =>
    if pySpace c then wordCountAux false rest
    else (if inWord then 0 else 1) + wordCountAux true rest

/-- Number of words of Python `s.split()`. -/
def wordCount (s : String) : Nat :=
  wordCountAux false s.data

/-- Python substring membership `needle in hay` on character lists. -/
def hasSubList (needle : List Char) : List Char → Bool
  | [] => needle.isEmpty
  | c :: rest => needle.isPrefixOf (c :: rest) || hasSubList needle rest

/-- Python `needle in hay` for strings. -/
def strContains (hay needle : String) : Bool :=
  hasSubList needle.data hay.data

/-- Python `s.startswith(pre)`. -/
def pyStartsWith (s pre : String) : Bool :=
  pre.data.isPrefixOf s.data

/-- The content seen by every classifier signal:
`content = message.content.lower().strip()` (planning.py line 146). -/
def normalizeContent (s : String) : String :=
  pyStrip (pyLower s)

/-- Phrase list `explicit_planning_indicators` (planning.py lines 148-162). -/
def explicitPlanningIndicators : List String :=
  ["create a plan for", "make a plan for", "schedule my", "plan my day",
   "organize my day", "i need a schedule", "help me schedule", "i want to plan",
   "create my schedule", "divide the time", "help me divide", "split my time",
   "organize my time"]

/-- Phrase list `activity_indicators` (planning.py lines 166-190). -/
def activityIndicators : List String :=
  ["hour", "hours", "minutes", "am", "pm", "morning", "afternoon", "evening",
   "code", "coding", "exercise", "work", "study", "cook", "clean", "read",
   "meeting", "call", "project", "task", "break", "lunch", "dinner"]

/-- Phrase list `conversational_phrases` (planning.py lines 195-209). -/
def conversationalPhrases : List String :=
  ["can you help", "do you help", "are you able", "what can you do",
   "how do you", "tell me about", "explain", "what is", "can i",
   "is it possible", "would you", "could you help", "can you plan"]

/-- Phrase list `concrete_scheduling_phrases` (planning.py lines 212-232). -/
def concreteSchedulingPhrases : List String :=
  ["schedule my", "create a detailed schedule", "specific times", "from 9am",
   "at 10am", "until 5pm", "9:00", "10:30", ":00", ":30", "am ", "pm ",
   "o\x27clock", "divide the time", "time properly", "split the time",
   "organize the time", "time block", "time allocation"]

/-- Signal `has_explicit_request` (planning.py line 164). -/
def hasExplicitRequest (content : String) : Bool :=
  explicitPlanningIndicators.any (fun p => strContains content p)

/-- Signal `has_activities` (planning.py line 192). -/
def hasActivities (content : String) : Bool :=
  activityIndicators.any (fun p => strContains content p)

/-- Signal `is_detailed`: `len(content.split()) >= 6` (planning.py line 193). -/
def isDetailed (content : String) : Bool :=
  6 ≤ wordCount content

/-- Signal `is_conversational` (planning.py line 210). -/
def isConversational (content : String) : Bool :=
  conversationalPhrases.any (fun p => strContains content p)

/-- Signal `wants_concrete_schedule` (planning.py line 233). -/
def wantsConcreteSchedule (content : String) : Bool :=
  concreteSchedulingPhrases.any (fun p => strContains content p)

/-- The intent classifier `PlanningAgent._is_planning_request` applied to a
message text (planning.py lines 142-243): lowercase and strip the text, then
combine the five keyword signals with the decision formula of line 235. -/
def isPlanningRequest (messageText : String) : Bool :=
  let content := normalizeContent messageText
  (wantsConcreteSchedule content && hasActivities content) ||
    (hasExplicitRequest content && hasActivities content && isDetailed content &&
      !isConversational content)

/-- Task record of the `TodoTask` pydantic model (agent_tools.py lines 23-32). -/
structure TodoTask where
  id : String
  title : String
  description : String
  priority : String
  estimated_duration : Nat
  scheduled_time : String
  category : String
  status : String
deriving DecidableEq

/-- Plan record of the `DailyPlan` pydantic model (agent_tools.py lines 35-47);
the optional totals default to `none` exactly as the pydantic fields default
to None. -/
structure DailyPlan where
  plan_id : String
  date : String
  tasks : List TodoTask
  created_at : Option String := none
  current_time : Option String := none
  total_tasks : Option Nat := none
  estimated_total_duration : Option Nat := none
  planning_notes : Option String := none
deriving DecidableEq

/-- Python `x or d` for an optional integer x: None and 0 are falsy and give
d, any non-zero value is kept. -/
def pyOrNat (x : Option Nat) (d : Nat) : Nat :=
  match x with
  | none => d
  | some k => if k = 0 then d else k

/-- Sum of the estimated_duration of every task, as computed by
`sum(int(t.get("estimated_duration", 0)) for t in plan_dict.get("tasks", []))`
in save_daily_plan (tools/planning.py lines 213-215). -/
def sumDurations (tasks : List TodoTask) : Nat :=
  (tasks.map TodoTask.estimated_duration).sum

/-- The plan_dict that `save_daily_plan` writes to the plan file
(tools/planning.py lines 196-218): the submitted plan with the totals filled
when missing or zero — `plan_dict.get("total_tasks") or len(tasks)` and
`if not plan_dict.get("estimated_total_duration"): ... = sum(durations)` —
and every other field written unchanged. -/
def save_daily_plan (plan : DailyPlan) : DailyPlan :=
  { plan with
    total_tasks := some (pyOrNat plan.total_tasks plan.tasks.length)
    estimated_total_duration :=
      some (pyOrNat plan.estimated_total_duration (sumDurations plan.tasks)) }

/-- The string returned by the except branch of `save_daily_plan`
(tools/planning.py lines 221-222): `f"Error saving plan: {str(e)}"`. -/
def saveErrorResult (e : String) : String :=
  "Error saving plan: " ++ e

/-- The failure marker that prefixes tool failure strings and that
`_should_continue` branches on (planning.py line 88). -/
def failMarker : String :=
  "❌"

/-- Task count reported by `load_daily_plan` (tools/planning.py line 232):
`plan_data.get("total_tasks") or len(plan_data.get("tasks", []))`. -/
def loadReportedCount (d : DailyPlan) : Nat :=
  pyOrNat d.total_tasks d.tasks.length

/-- Date reported by `load_daily_plan` (tools/planning.py line 233). -/
def loadReportedDate (d : DailyPlan) : String :=
  d.date

/-- The confirmation string built by `load_daily_plan` on the stored plan data
(tools/planning.py lines 226-233). -/
def load_daily_plan (d : DailyPlan) : String :=
  "✅ Loaded plan for " ++ loadReportedDate d ++ " with " ++
    toString (loadReportedCount d) ++ " tasks"

/-- The for/else task loop of `update_task_status` (tools/planning.py lines
281-286): update the status of the first task whose id matches, leave every
other task untouched, and report whether a match was found. -/
def updateTasks (task_id new_status : String) : List TodoTask → List TodoTask × Bool
  | [] => ([], false)
  | t :: ts =>
    if t.id = task_id then ({ t with status := new_status } :: ts, true)
    else
      let r := updateTasks task_id new_status ts
      (t :: r.1, r.2)

/-- `update_task_status` (tools/planning.py lines 274-293) on the plan data
read from the file: returns the tool result string together with the plan
data the file holds after the call (the Python rewrites the file only in the
found case; in the for/else not-found case it returns before writing). -/
def update_task_status (plan : DailyPlan) (task_id new_status : String) :
    String × DailyPlan :=
  let r := updateTasks task_id new_status plan.tasks
  if r.2 then
    ("✅ Task \x27" ++ task_id ++ "\x27 status updated to \x27" ++ new_status ++ "\x27",
      { plan with tasks := r.1 })
  else
    ("❌ Task with ID \x27" ++ task_id ++ "\x27 not found", plan)

/-- Hour-dependent fields of the dict returned by `get_current_time_info`
(tools/planning.py lines 63-79), as a function of `now.hour`. -/
structure TimeInfo where
  remaining_hours_today : Nat
  is_morning : Bool
  is_afternoon : Bool
  is_evening : Bool
deriving DecidableEq

/-- `get_current_time_info` (tools/planning.py lines 63-79) restricted to the
fields computed from `now.hour`: `24 - now.hour`, `now.hour < 12`,
`12 <= now.hour < 18`, `now.hour >= 18`. -/
def get_current_time_info (hour : Nat) : TimeInfo :=
  { remaining_hours_today := 24 - hour
    is_morning := decide (hour < 12)
    is_afternoon := decide (12 ≤ hour ∧ hour < 18)
    is_evening := decide (18 ≤ hour) }

/-- Messages threaded through the orchestration loop: LangChain messages seen
by `_should_continue`, which only inspects the optional `name` attribute (set
to the tool name on tool result messages, None on AI and human messages) and
the `content` text. -/
structure Msg where
  name : Option String
  content : String
deriving DecidableEq

/-- The continuation predicate `PlanningAgent._should_continue` (planning.py
lines 81-92): with no messages, continue; otherwise end exactly when the last
message is named save_daily_plan and its content does not start with the
failure marker. -/
def shouldContinue (messages : List Msg) : String :=
  match messages.getLast? with
  | none => "continue"
  | some m =>
    if m.name = some "save_daily_plan" ∧ pyStartsWith m.content failMarker = false then
      "__end__"
    else "continue"

/-- Response of one LLM invocation at the AGENT node: either plain text or a
batch of tool-call requests, as dispatched by langgraph tools_condition
(planning.py lines 59-66). -/
inductive AgentOutput where
  | text (s : String)
  | toolCalls (names : List String)

/-- The orchestration loop of the compiled graph (planning.py lines 48-79)
run on a message list, with the LLM and the per-tool executor as parameters
and the recursion limit as fuel: the AGENT node appends the LLM response; on
plain text (or an empty tool-call batch) the graph ends; otherwise the TOOLS
node appends one result message per requested tool and `shouldContinue`
decides between ending and returning to AGENT. Returns the final message
list and the number of AGENT activations, or none when fuel runs out. -/
def runLoop (llm : List Msg → AgentOutput) (exec : String → Msg) :
    Nat → List Msg → Option (List Msg × Nat)
  | 0, _ => none
  | fuel + 1, msgs =>
    match llm msgs with
    | AgentOutput.text s => some (msgs ++ [⟨none, s⟩], 1)
    | AgentOutput.toolCalls calls =>
      if calls.isEmpty then some (msgs ++ [⟨none, ""⟩], 1)
      else
        let msgs2 := (msgs ++ [⟨none, ""⟩]) ++ calls.map exec
        if shouldContinue msgs2 = "__end__" then some (msgs2, 1)
        else
          match runLoop llm exec fuel msgs2 with
          | none => none
          | some (final, n) => some (final, n + 1)

/-- Entries of the caller-supplied conversation_history list handed to
`PlanningAgent.chat` (planning.py line 269): either a plain role/content dict
or an internal message object. -/
inductive ChatHistEntry where
  | dictEntry (role content : String)
  | msgEntry (m : Msg)
deriving DecidableEq

/-- The caller-visible content of the conversation_history list after
`PlanningAgent.chat(message, conversation_history)` returns (planning.py
lines 275-288): an empty or missing history makes chat start a fresh list, a
history of dicts is coerced into a fresh list of message objects, but a
non-empty history of message objects is aliased by `messages` and the
`messages.append(HumanMessage(...))` on line 288 mutates it in place. -/
def chatCallerHistoryAfter (history : List ChatHistEntry) (message : String) :
    List ChatHistEntry :=
  match history with
  | [] => []
  | ChatHistEntry.dictEntry _ _ :: _ => history
  | ChatHistEntry.msgEntry _ :: _ =>
    history ++ [ChatHistEntry.msgEntry ⟨none, message⟩]

/-- Concrete task used by witnesses: 60 minutes of project work. -/
def taskCode : TodoTask :=
  { id := "t1", title := "Code", description := "work on the project",
    priority := "high", estimated_duration := 60, scheduled_time := "09:00",
    category := "work", status := "pending" }

/-- Concrete task used by witnesses: a 30 minute lunch. -/
def taskLunch : TodoTask :=
  { id := "t2", title := "Lunch", description := "eat", priority := "low",
    estimated_duration := 30, scheduled_time := "12:00",
    category := "personal", status := "pending" }

/-- Concrete plan whose totals are unset, as an LLM may submit it. -/
def planNoTotals : DailyPlan :=
  { plan_id := "plan_a", date := "2024-01-01", tasks := [taskCode, taskLunch] }

/-- Concrete plan submitted with pre-set non-zero totals that disagree with
its single task. -/
def planPresetTotals : DailyPlan :=
  { plan_id := "plan_b", date := "2024-01-02", tasks := [taskCode],
    total_tasks := some 7, estimated_total_duration := some 45 }

/-- C1: the intent classifier returns true exactly when
`(wants_concrete_schedule AND has_activities) OR (has_explicit_request AND
has_activities AND is_detailed AND NOT is_conversational)`, each signal
computed by case-insensitive substring membership against the fixed phrase
lists (is_detailed: word count of at least 6); it returns false on
"Can you help me plan my day?" and true on
"Schedule my day: code 9-11am, exercise 11:30-12, lunch 12-1pm". -/
theorem classifier_decision_formula :
    (∀ s : String, isPlanningRequest s =
      ((wantsConcreteSchedule (normalizeContent s) && hasActivities (normalizeContent s)) ||
        (hasExplicitRequest (normalizeContent s) && hasActivities (normalizeContent s) &&
          isDetailed (normalizeContent s) && !isConversational (normalizeContent s))))
    ∧ isPlanningRequest "Can you help me plan my day?" = false
    ∧ isPlanningRequest "Schedule my day: code 9-11am, exercise 11:30-12, lunch 12-1pm" = true :=
  ⟨fun _ => rfl, by decide, by decide⟩

/-- C8: activity keywords are necessary — on any text in which no entry of the
activity/time-unit list occurs, the intent classifier returns false, whatever
the other signals are. -/
theorem classifier_requires_activities (s : String)
    (h : hasActivities (normalizeContent s) = false) :
    isPlanningRequest s = false := by
  simp [isPlanningRequest, h]

/-- Witness for C8: the concrete text "hello friend" has no activity keyword
and is classified false. -/
theorem classifier_requires_activities_witness :
    hasActivities (normalizeContent "hello friend") = false ∧
      isPlanningRequest "hello friend" = false :=
  ⟨by decide, classifier_requires_activities "hello friend" (by decide)⟩

/-- C9: a concrete clock-time token — the time entries ":00" / ":30" of the
concrete-scheduling phrase list, which the examples 9:00 and 10:30 end in —
together with an activity keyword forces the classifier to true, with no
explicit plan phrasing required. -/
theorem classifier_time_token_triggers (s : String)
    (h1 : strContains (normalizeContent s) ":00" = true ∨
      strContains (normalizeContent s) ":30" = true)
    (h2 : hasActivities (normalizeContent s) = true) :
    isPlanningRequest s = true := by
  have hw : wantsConcreteSchedule (normalizeContent s) = true := by
    rcases h1 with h | h
    · exact List.any_eq_true.mpr ⟨":00", by decide, h⟩
    · exact List.any_eq_true.mpr ⟨":30", by decide, h⟩
  simp [isPlanningRequest, hw, h2]

/-- Witness for C9: "exercise at 10:30" contains the time token ":30" and the
activity keyword "exercise", and is classified true. -/
theorem classifier_time_token_triggers_witness :
    strContains (normalizeContent "exercise at 10:30") ":30" = true ∧
      hasActivities (normalizeContent "exercise at 10:30") = true ∧
      isPlanningRequest "exercise at 10:30" = true :=
  ⟨by decide, by decide,
    classifier_time_token_triggers "exercise at 10:30" (Or.inr (by decide)) (by decide)⟩

/-- C10: for every clock hour below 24, exactly one of the is_morning
(hour < 12), is_afternoon (12 <= hour < 18) and is_evening (hour >= 18) flags
of get_current_time_info is set, and remaining_hours_today equals 24 - hour,
which lies between 1 and 24. -/
theorem time_info_invariant :
    ∀ hour : Nat, hour < 24 →
      ((if (get_current_time_info hour).is_morning then 1 else 0) +
        (if (get_current_time_info hour).is_afternoon then 1 else 0) +
        (if (get_current_time_info hour).is_evening then 1 else 0) = 1)
      ∧ (get_current_time_info hour).remaining_hours_today = 24 - hour
      ∧ 1 ≤ (get_current_time_info hour).remaining_hours_today
      ∧ (get_current_time_info hour).remaining_hours_today ≤ 24 := by
  decide

/-- Witness for C10: the invariant instantiated at hour 9. -/
theorem time_info_invariant_witness :
    (9 : Nat) < 24 ∧
      (((if (get_current_time_info 9).is_morning then 1 else 0) +
          (if (get_current_time_info 9).is_afternoon then 1 else 0) +
          (if (get_current_time_info 9).is_evening then 1 else 0) = 1)
        ∧ (get_current_time_info 9).remaining_hours_today = 24 - 9
        ∧ 1 ≤ (get_current_time_info 9).remaining_hours_today
        ∧ (get_current_time_info 9).remaining_hours_today ≤ 24) :=
  ⟨by decide, time_info_invariant 9 (by decide)⟩

/-- C3: save_daily_plan stores the sum of the task durations when the
submitted estimated_total_duration is unset or zero and the task count when
total_tasks is unset, and stores any present non-zero value of either field
unchanged. -/
theorem save_totals_policy (p : DailyPlan) :
    ((p.estimated_total_duration = none ∨ p.estimated_total_duration = some 0) →
      (save_daily_plan p).estimated_total_duration = some (sumDurations p.tasks))
    ∧ (p.total_tasks = none →
      (save_daily_plan p).total_tasks = some p.tasks.length)
    ∧ (∀ k, p.estimated_total_duration = some k → k ≠ 0 →
      (save_daily_plan p).estimated_total_duration = some k)
    ∧ (∀ k, p.total_tasks = some k → k ≠ 0 →
      (save_daily_plan p).total_tasks = some k) := by
  refine ⟨?_, ?_, ?_, ?_⟩
  · rintro (h | h) <;> simp [save_daily_plan, pyOrNat, h]
  · intro h
    simp [save_daily_plan, pyOrNat, h]
  · intro k h hk
    simp [save_daily_plan, pyOrNat, h, hk]
  · intro k h hk
    simp [save_daily_plan, pyOrNat, h, hk]

/-- Witness for C3: the totals of a concrete plan submitted without totals are
filled from its two tasks, and the pre-set non-zero totals of another concrete
plan are stored unchanged. -/
theorem save_totals_policy_witness :
    (save_daily_plan planNoTotals).estimated_total_duration =
      some (sumDurations planNoTotals.tasks)
    ∧ (save_daily_plan planNoTotals).total_tasks = some planNoTotals.tasks.length
    ∧ (save_daily_plan planPresetTotals).estimated_total_duration = some 45
    ∧ (save_daily_plan planPresetTotals).total_tasks = some 7 :=
  ⟨(save_totals_policy planNoTotals).1 (Or.inl rfl),
    (save_totals_policy planNoTotals).2.1 rfl,
    (save_totals_policy planPresetTotals).2.2.1 45 rfl (by decide),
    (save_totals_policy planPresetTotals).2.2.2 7 rfl (by decide)⟩

/-- Counterexample to C5: the concrete plan submitted with total_tasks = 7 but
a single task is saved with the 7 preserved, and loading the stored plan
reports 7 tasks, not the number of tasks of the saved plan. -/
theorem save_load_roundtrip_counterexample :
    loadReportedCount (save_daily_plan planPresetTotals) = 7
    ∧ planPresetTotals.tasks.length = 1
    ∧ loadReportedCount (save_daily_plan planPresetTotals) ≠
      planPresetTotals.tasks.length
    ∧ load_daily_plan (save_daily_plan planPresetTotals) =
      "✅ Loaded plan for 2024-01-02 with 7 tasks" := by
  refine ⟨by decide, by decide, by decide, by decide⟩

/-- C5 amended: loading a saved plan reports the same date, and the reported
task count is the stored total_tasks — the Python-truthy choice between the
submitted total_tasks and the task-list length — which equals the number of
tasks of the saved plan whenever the submitted total_tasks is unset or zero. -/
theorem save_load_roundtrip (p : DailyPlan) :
    loadReportedDate (save_daily_plan p) = p.date
    ∧ loadReportedCount (save_daily_plan p) = pyOrNat p.total_tasks p.tasks.length
    ∧ ((p.total_tasks = none ∨ p.total_tasks = some 0) →
      loadReportedCount (save_daily_plan p) = p.tasks.length) := by
  refine ⟨rfl, ?_, ?_⟩
  · cases hx : p.total_tasks with
    | none => simp [save_daily_plan, loadReportedCount, pyOrNat, hx]
    | some k =>
      by_cases hk : k = 0 <;>
        simp [save_daily_plan, loadReportedCount, pyOrNat, hx, hk]
  · rintro (h | h) <;> simp [save_daily_plan, loadReportedCount, pyOrNat, h]

/-- Witness for C5 amended: the round trip on the concrete plan without
pre-set totals reports its date and its task count. -/
theorem save_load_roundtrip_witness :
    loadReportedDate (save_daily_plan planNoTotals) = planNoTotals.date
    ∧ loadReportedCount (save_daily_plan planNoTotals) = planNoTotals.tasks.length :=
  ⟨(save_load_roundtrip planNoTotals).1,
    (save_load_roundtrip planNoTotals).2.2 (Or.inl rfl)⟩

/-- C6: the except branch of save_daily_plan returns a failure string that
does not carry the failure marker prefix, so the continuation predicate then
ends the loop exactly as it does for a successful save — the code contradicts
the marker convention every other tool failure string and the
save-termination check rely on. -/
theorem save_error_lacks_marker :
    saveErrorResult "disk full" = "Error saving plan: disk full"
    ∧ pyStartsWith (saveErrorResult "disk full") failMarker = false
    ∧ shouldContinue [⟨some "save_daily_plan", saveErrorResult "disk full"⟩] =
      "__end__"
    ∧ pyStartsWith ("❌ Error loading plan: x") failMarker = true := by
  refine ⟨rfl, by decide, by decide, by decide⟩

/-- Helper: on a task list with no matching id the update loop reports no
match and returns the list unchanged. -/
theorem updateTasks_of_no_match (task_id new_status : String) (ts : List TodoTask)
    (h : ∀ t ∈ ts, t.id ≠ task_id) :
    updateTasks task_id new_status ts = (ts, false) := by
  induction ts with
  | nil => rfl
  | cons t ts ih =>
    have ht : ¬ t.id = task_id := h t (by simp)
    have ih2 := ih (fun u hu => h u (by simp [hu]))
    simp [updateTasks, ht, ih2]

/-- Helper: when the list splits at its first matching task, the update loop
rewrites exactly that status and keeps everything else. -/
theorem updateTasks_first_match (task_id new_status : String) :
    ∀ (pre : List TodoTask) (t : TodoTask) (post : List TodoTask),
      (∀ u ∈ pre, u.id ≠ task_id) → t.id = task_id →
      updateTasks task_id new_status (pre ++ t :: post) =
        (pre ++ { t with status := new_status } :: post, true) := by
  intro pre
  induction pre with
  | nil =>
    intro t post _ ht
    simp [updateTasks, ht]
  | cons u pre ih =>
    intro t post hpre ht
    have hu : ¬ u.id = task_id := hpre u (by simp)
    have ih2 := ih t post (fun v hv => hpre v (by simp [hv])) ht
    simp [updateTasks, hu, ih2]

/-- Helper: a list with some matching task splits at its first match. -/
theorem exists_first_match (task_id : String) (ts : List TodoTask)
    (h : ts.any (fun t => t.id == task_id) = true) :
    ∃ pre t post, ts = pre ++ t :: post ∧ (∀ u ∈ pre, u.id ≠ task_id) ∧
      t.id = task_id := by
  induction ts with
  | nil => simp at h
  | cons t ts ih =>
    by_cases ht : t.id = task_id
    · exact ⟨[], t, ts, rfl, by simp, ht⟩
    · have h2 : ts.any (fun t => t.id == task_id) = true := by
        have hb : (t.id == task_id) = false := beq_eq_false_iff_ne.mpr ht
        simpa only [List.any_cons, hb, Bool.false_or] using h
      obtain ⟨pre, u, post, heq, hpre, hu⟩ := ih h2
      refine ⟨t :: pre, u, post, by simp [heq], ?_, hu⟩
      intro v hv
      rcases List.mem_cons.mp hv with rfl | hv2
      · exact ht
      · exact hpre v hv2

/-- C4: when some task of the plan file matches the requested id,
update_task_status sets the status of exactly the first matching task and
rewrites the file with every other task and every other plan field unchanged;
when no task matches, it returns the failure-marked not-found result and the
file contents are left unchanged. -/
theorem update_task_status_first_match (plan : DailyPlan)
    (task_id new_status : String) :
    (plan.tasks.any (fun t => t.id == task_id) = true →
      ∃ pre t post, plan.tasks = pre ++ t :: post
        ∧ (∀ u ∈ pre, u.id ≠ task_id) ∧ t.id = task_id
        ∧ update_task_status plan task_id new_status =
          ("✅ Task \x27" ++ task_id ++ "\x27 status updated to \x27" ++
              new_status ++ "\x27",
            { plan with tasks := pre ++ { t with status := new_status } :: post }))
    ∧ (plan.tasks.any (fun t => t.id == task_id) = false →
      update_task_status plan task_id new_status =
        ("❌ Task with ID \x27" ++ task_id ++ "\x27 not found", plan)) := by
  constructor
  · intro h
    obtain ⟨pre, t, post, heq, hpre, ht⟩ := exists_first_match task_id plan.tasks h
    have hupd := updateTasks_first_match task_id new_status pre t post hpre ht
    refine ⟨pre, t, post, heq, hpre, ht, ?_⟩
    simp [update_task_status, heq, hupd]
  · intro h
    have hno : ∀ t ∈ plan.tasks, t.id ≠ task_id := by
      intro t htmem heq2
      have hany : plan.tasks.any (fun t => t.id == task_id) = true :=
        List.any_eq_true.mpr ⟨t, htmem, by simp [heq2]⟩
      simp [hany] at h
    have hupd := updateTasks_of_no_match task_id new_status plan.tasks hno
    simp [update_task_status, hupd]

/-- Witness for C4: updating task t1 of the concrete two-task plan rewrites
its status in place, and updating a missing id fails and leaves the plan
unchanged. -/
theorem update_task_status_first_match_witness :
    (∃ pre t post, planNoTotals.tasks = pre ++ t :: post
      ∧ (∀ u ∈ pre, u.id ≠ "t1") ∧ t.id = "t1"
      ∧ update_task_status planNoTotals "t1" "completed" =
        ("✅ Task \x27" ++ "t1" ++ "\x27 status updated to \x27" ++
            "completed" ++ "\x27",
          { planNoTotals with
            tasks := pre ++ { t with status := "completed" } :: post }))
    ∧ update_task_status planNoTotals "missing" "completed" =
      ("❌ Task with ID \x27" ++ "missing" ++ "\x27 not found", planNoTotals) :=
  ⟨(update_task_status_first_match planNoTotals "t1" "completed").1 (by decide),
    (update_task_status_first_match planNoTotals "missing" "completed").2 (by decide)⟩

/-- Helper: the continuation predicate on a list with no last message. -/
theorem shouldContinue_of_getLast_none (msgs : List Msg)
    (h : msgs.getLast? = none) : shouldContinue msgs = "continue" := by
  unfold shouldContinue
  rw [h]

/-- Helper: the continuation predicate in terms of the last message. -/
theorem shouldContinue_of_getLast_some (msgs : List Msg) (m : Msg)
    (h : msgs.getLast? = some m) :
    shouldContinue msgs =
      if m.name = some "save_daily_plan" ∧ pyStartsWith m.content failMarker = false
      then "__end__" else "continue" := by
  unfold shouldContinue
  rw [h]

/-- Helper: the continuation predicate ends exactly on a last message named
save_daily_plan whose content lacks the failure marker prefix. -/
theorem shouldContinue_end_iff (msgs : List Msg) :
    shouldContinue msgs = "__end__" ↔
      ∃ m, msgs.getLast? = some m ∧ m.name = some "save_daily_plan" ∧
        pyStartsWith m.content failMarker = false := by
  cases hms : msgs.getLast? with
  | none =>
    rw [shouldContinue_of_getLast_none msgs hms]
    constructor
    · intro hcontr
      exact absurd hcontr (by decide)
    · rintro ⟨m, hm, _, _⟩
      exact Option.noConfusion hm
  | some m =>
    rw [shouldContinue_of_getLast_some msgs m hms]
    by_cases hc : m.name = some "save_daily_plan" ∧
        pyStartsWith m.content failMarker = false
    · rw [if_pos hc]
      exact ⟨fun _ => ⟨m, rfl, hc.1, hc.2⟩, fun _ => rfl⟩
    · rw [if_neg hc]
      constructor
      · intro hcontr
        exact absurd hcontr (by decide)
      · rintro ⟨m2, hm2, hname, hpre⟩
        obtain rfl : m = m2 := Option.some.inj hm2
        exact absurd ⟨hname, hpre⟩ hc

/-- Helper: the continuation predicate only takes the two edge labels. -/
theorem shouldContinue_cases (msgs : List Msg) :
    shouldContinue msgs = "__end__" ∨ shouldContinue msgs = "continue" := by
  cases hms : msgs.getLast? with
  | none => exact Or.inr (shouldContinue_of_getLast_none msgs hms)
  | some m =>
    rw [shouldContinue_of_getLast_some msgs m hms]
    by_cases hc : m.name = some "save_daily_plan" ∧
        pyStartsWith m.content failMarker = false
    · exact Or.inl (if_pos hc)
    · exact Or.inr (if_neg hc)

/-- C2: the continuation predicate ends the loop exactly when the most recent
message is a tool result named save_daily_plan whose content does not begin
with the failure marker, and otherwise returns control to the AGENT node; in
particular, with an LLM whose first response calls save_daily_plan and a save
that succeeds, the orchestration loop ends after a single
AGENT - TOOLS - END cycle and the final message is the save tool result. -/
theorem loop_ends_after_successful_save
    (llm : List Msg → AgentOutput) (exec : String → Msg) (msgs0 : List Msg)
    (h1 : llm msgs0 = AgentOutput.toolCalls ["save_daily_plan"])
    (h2 : (exec "save_daily_plan").name = some "save_daily_plan")
    (h3 : pyStartsWith (exec "save_daily_plan").content failMarker = false)
    (fuel : Nat) :
    (∀ msgs : List Msg,
      (shouldContinue msgs = "__end__" ↔
        ∃ m, msgs.getLast? = some m ∧ m.name = some "save_daily_plan" ∧
          pyStartsWith m.content failMarker = false)
      ∧ (shouldContinue msgs = "__end__" ∨ shouldContinue msgs = "continue"))
    ∧ runLoop llm exec (fuel + 1) msgs0 =
      some ((msgs0 ++ [(⟨none, ""⟩ : Msg)]) ++ [exec "save_daily_plan"], 1)
    ∧ ((msgs0 ++ [(⟨none, ""⟩ : Msg)]) ++ [exec "save_daily_plan"]).getLast? =
      some (exec "save_daily_plan") := by
  refine ⟨fun msgs => ⟨shouldContinue_end_iff msgs, shouldContinue_cases msgs⟩,
    ?_, by simp⟩
  have hlast : (msgs0 ++ [(⟨none, ""⟩ : Msg), exec "save_daily_plan"]).getLast? =
      some (exec "save_daily_plan") := by
    have hsplit : msgs0 ++ [(⟨none, ""⟩ : Msg), exec "save_daily_plan"] =
        (msgs0 ++ [(⟨none, ""⟩ : Msg)]) ++ [exec "save_daily_plan"] := by simp
    rw [hsplit, List.getLast?_concat]
  have hend : shouldContinue (msgs0 ++ [(⟨none, ""⟩ : Msg), exec "save_daily_plan"]) =
      "__end__" :=
    (shouldContinue_end_iff _).mpr ⟨exec "save_daily_plan", hlast, h2, h3⟩
  simp only [runLoop, h1]
  simp [hend]

/-- A successful save tool result message for the C2 witness. -/
def wSaveResultMsg : Msg :=
  ⟨some "save_daily_plan", "plans/plan_2024-01-01_120000.json"⟩

/-- Simulated LLM for the C2 witness: always requests the save tool. -/
def wLLM : List Msg → AgentOutput :=
  fun _ => AgentOutput.toolCalls ["save_daily_plan"]

/-- Simulated tool executor for the C2 witness. -/
def wExec : String → Msg :=
  fun n => if n = "save_daily_plan" then wSaveResultMsg else ⟨none, ""⟩

/-- Initial conversation for the C2 witness. -/
def wMsgs0 : List Msg :=
  [⟨none, "Schedule my day: code 9-11am"⟩]

/-- Witness for C2: the concrete simulated run ends in one cycle with the
save confirmation as final message. -/
theorem loop_ends_after_successful_save_witness :
    runLoop wLLM wExec 1 wMsgs0 =
      some ((wMsgs0 ++ [(⟨none, ""⟩ : Msg)]) ++ [wExec "save_daily_plan"], 1)
    ∧ ((wMsgs0 ++ [(⟨none, ""⟩ : Msg)]) ++ [wExec "save_daily_plan"]).getLast? =
      some (wExec "save_daily_plan") :=
  ⟨(loop_ends_after_successful_save wLLM wExec wMsgs0 rfl (by decide) (by decide) 0).2.1,
    (loop_ends_after_successful_save wLLM wExec wMsgs0 rfl (by decide) (by decide) 0).2.2⟩

/-- Counterexample to C7: a call to chat on a non-empty caller-supplied
history of message objects leaves the caller with a longer list — the new
user message was appended in place — so the history is not operated on as a
copy. -/
theorem chat_mutates_caller_history :
    chatCallerHistoryAfter [ChatHistEntry.msgEntry ⟨none, "earlier turn"⟩] "hello"
      ≠ [ChatHistEntry.msgEntry ⟨none, "earlier turn"⟩]
    ∧ (chatCallerHistoryAfter [ChatHistEntry.msgEntry ⟨none, "earlier turn"⟩]
        "hello").length = 2
    ∧ [ChatHistEntry.msgEntry (⟨none, "earlier turn"⟩ : Msg)].length = 1 :=
  ⟨by decide, by decide, by decide⟩

/-- C7 amended: chat leaves the caller-supplied conversation_history with its
original length and elements exactly when the history is empty or is a list
of plain role/content dicts (which chat coerces into a fresh list); a
non-empty history of message objects is mutated in place by appending the new
user message. -/
theorem chat_history_aliasing (history : List ChatHistEntry) (message : String) :
    chatCallerHistoryAfter history message = history ↔
      (history = [] ∨
        ∃ r c rest, history = ChatHistEntry.dictEntry r c :: rest) := by
  cases history with
  | nil => simp [chatCallerHistoryAfter]
  | cons e rest =>
    cases e with
    | dictEntry r c =>
      exact ⟨fun _ => Or.inr ⟨r, c, rest, rfl⟩, fun _ => rfl⟩
    | msgEntry m =>
      constructor
      · intro h
        exfalso
        have hlen := congrArg List.length h
        simp [chatCallerHistoryAfter] at hlen
      · rintro (h | ⟨r, c, rest2, h⟩) <;> simp at h

end AgenticHelper
